import Mathlib

/-!
Shallow embedding of `docs/examples/gtk_presence_app/presence-widget.c`
(the PresenceWidget component of telepathy-doc).

The widget mirrors a Telepathy account's state into GTK controls and relays
user edits of the enabled toggle back to the account.  GTK/telepathy-glib
calls that leave the component (asynchronous D-Bus requests, logging,
widget destruction, signal wiring) are modelled as an explicit list of
`Effect` values emitted by each handler; the private instance struct
`PresenceWidgetPrivate` is threaded through handlers as explicit state.
`gtk_toggle_button_set_active` is modelled with GTK's documented behaviour:
it emits the `toggled` signal (synchronously invoking the connected
`_enabled_toggled` handler) exactly when the active state actually changes.
-/

set_option autoImplicit false

/-- `TpConnectionPresenceType`: the nine-value closed enumeration from
telepathy-glib (`TP_CONNECTION_PRESENCE_TYPE_UNSET` = 0 through
`TP_CONNECTION_PRESENCE_TYPE_ERROR` = 8). -/
inductive TpConnectionPresenceType
  | unset
  | offline
  | available
  | away
  | extended_away
  | hidden
  | busy
  | unknown
  | error
  deriving DecidableEq, Repr

/-- The numeric value of a `TpConnectionPresenceType`, as used to index the
two static arrays in the C file. -/
def TpConnectionPresenceType.toNat : TpConnectionPresenceType → Nat
  | .unset => 0
  | .offline => 1
  | .available => 2
  | .away => 3
  | .extended_away => 4
  | .hidden => 5
  | .busy => 6
  | .unknown => 7
  | .error => 8

/-- `NUM_TP_CONNECTION_PRESENCE_TYPES` (the length of both static arrays). -/
def NUM_TP_CONNECTION_PRESENCE_TYPES : Nat := 9

/-- `static const char *presence_icons[NUM_TP_CONNECTION_PRESENCE_TYPES]`
(presence-widget.c lines 41-51). -/
def presence_icons : List String :=
  [ "empathy-offline",
    "empathy-offline",
    "empathy-available",
    "empathy-away",
    "empathy-extended-away",
    "empathy-offline",
    "empathy-busy",
    "empathy-offline",
    "empathy-offline" ]

/-- `static const char *default_messages[NUM_TP_CONNECTION_PRESENCE_TYPES]`
(presence-widget.c lines 53-63). -/
def default_messages : List String :=
  [ "Unset",
    "Offline",
    "Available",
    "Away",
    "Extended Away",
    "Hidden",
    "Busy",
    "Unknown",
    "Error" ]

/-- The C expression `presence_icons[presence]`: indexing is within bounds
for every value of the closed enumeration. -/
def presence_icons_at (p : TpConnectionPresenceType) : String :=
  presence_icons.get ⟨p.toNat, by cases p <;> decide⟩

/-- The C expression `default_messages[presence]`. -/
def default_messages_at (p : TpConnectionPresenceType) : String :=
  default_messages.get ⟨p.toNat, by cases p <;> decide⟩

/-- A `TpConnection` proxy, abstracted to the one observable the file
queries: the set of interfaces the connection declares
(`tp_proxy_has_interface`). -/
structure TpConnection where
  interfaces : List String
  deriving DecidableEq, Repr

/-- `tp_proxy_has_interface`. -/
def tp_proxy_has_interface (conn : TpConnection) (iface : String) : Bool :=
  conn.interfaces.contains iface

/-- `TP_IFACE_CONNECTION_INTERFACE_SIMPLE_PRESENCE`. -/
def TP_IFACE_CONNECTION_INTERFACE_SIMPLE_PRESENCE : String :=
  "org.freedesktop.Telepathy.Connection.Interface.SimplePresence"

/-- `TP_CONNECTION_STATUS_CONNECTED` (telepathy Connection_Status). -/
def TP_CONNECTION_STATUS_CONNECTED : Nat := 0

/-- `TP_CONNECTION_STATUS_CONNECTING`. -/
def TP_CONNECTION_STATUS_CONNECTING : Nat := 1

/-- `TP_CONNECTION_STATUS_DISCONNECTED`. -/
def TP_CONNECTION_STATUS_DISCONNECTED : Nat := 2

/-- A `TpAccount` proxy, abstracted to the observable fields the file
reads through its accessors. -/
structure TpAccount where
  enabled : Bool
  display_name : String
  presence : TpConnectionPresenceType
  status_message : String
  connection_status : Nat
  connection : Option TpConnection
  deriving DecidableEq, Repr

/-- `tp_account_is_enabled`. -/
def tp_account_is_enabled (account : TpAccount) : Bool :=
  account.enabled

/-- `tp_account_get_display_name`. -/
def tp_account_get_display_name (account : TpAccount) : String :=
  account.display_name

/-- `tp_account_get_presence`. -/
def tp_account_get_presence (account : TpAccount) : TpConnectionPresenceType :=
  account.presence

/-- `tp_account_get_status_message`. -/
def tp_account_get_status_message (account : TpAccount) : String :=
  account.status_message

/-- `tp_account_get_connection_status`. -/
def tp_account_get_connection_status (account : TpAccount) : Nat :=
  account.connection_status

/-- `tp_account_get_connection` (nullable). -/
def tp_account_get_connection (account : TpAccount) : Option TpConnection :=
  account.connection

/-- A `GError`, abstracted to its message. -/
structure GError where
  message : String
  deriving DecidableEq, Repr

/-- A boxed `GHashTable` reference (the cached status-spec map), modelled
by its pointer identity. -/
abbrev GHashTable := Nat

/-- The `GValue` delivered to `_get_property_statuses`: either it holds a
`TP_HASH_TYPE_SIMPLE_STATUS_SPEC_MAP` boxed table or something else
(in which case the `g_return_if_fail` type check rejects it). -/
inductive GValue
  | statusSpecMap (table : GHashTable)
  | other
  deriving DecidableEq, Repr

/-- Calls this component makes into GTK / telepathy-glib, recorded as data. -/
inductive Effect
  | setEnabled (value : Bool)
  | callWhenReady (conn : TpConnection)
  | getProperty (iface : String) (prop : String)
  | warning (message : String)
  | unrefTable (table : GHashTable)
  | unrefAccount
  | destroyWidget
  | connectSignal (signal : String)
  deriving DecidableEq, Repr

/-- Is this effect a `tp_account_set_enabled_async` request? -/
def Effect.isSetEnabled : Effect → Bool
  | .setEnabled _ => true
  | _ => false

/-- Is this effect a `g_hash_table_unref` of the cached status map? -/
def Effect.isUnrefTable : Effect → Bool
  | .unrefTable _ => true
  | _ => false

/-- `struct _PresenceWidgetPrivate` plus the observable state of the three
child widgets it points at. -/
structure PresenceWidgetPrivate where
  account : Option TpAccount
  statuses : Option GHashTable
  enabled_check_active : Bool
  enabled_check_label : String
  status_icon : String
  status_message_text : String
  updating_ui_lock : Int
  deriving DecidableEq, Repr

/-- `_enabled_toggled` (presence-widget.c lines 295-306): a `toggled` event
from the check button.  If the re-entrancy guard is positive the event is
an echo of our own programmatic write and is ignored; otherwise issue one
asynchronous `tp_account_set_enabled_async` request carrying the button's
current active state. -/
def _enabled_toggled (priv : PresenceWidgetPrivate) (button_active : Bool) :
    List Effect :=
  if priv.updating_ui_lock > 0 then []
  else [Effect.setEnabled button_active]

/-- `gtk_toggle_button_set_active`, as GTK documents it: update the button's
active state and, exactly when the state actually changed, emit `toggled` —
which `presence_widget_init` has connected to `_enabled_toggled`, so that
handler runs synchronously during the write. -/
def gtk_toggle_button_set_active (priv : PresenceWidgetPrivate)
    (is_active : Bool) : PresenceWidgetPrivate × List Effect :=
  if priv.enabled_check_active = is_active then (priv, [])
  else
    let priv1 := { priv with enabled_check_active := is_active }
    (priv1, _enabled_toggled priv1 is_active)

/-- `_notify_enabled` (presence-widget.c lines 105-116): increment the
re-entrancy guard, push the account's enabled flag into the toggle control
(possibly synchronously re-entering `_enabled_toggled`), decrement the
guard. -/
def _notify_enabled (priv : PresenceWidgetPrivate) (account : TpAccount) :
    PresenceWidgetPrivate × List Effect :=
  let priv1 := { priv with updating_ui_lock := priv.updating_ui_lock + 1 }
  let step := gtk_toggle_button_set_active priv1 (tp_account_is_enabled account)
  ({ step.1 with updating_ui_lock := step.1.updating_ui_lock - 1 }, step.2)

/-- `_notify_display_name` (lines 118-127): set the check button's label to
the account's display name. -/
def _notify_display_name (priv : PresenceWidgetPrivate) (account : TpAccount) :
    PresenceWidgetPrivate :=
  { priv with enabled_check_label := tp_account_get_display_name account }

/-- `_notify_presence` (lines 129-141): look the presence up in
`presence_icons` and set the status icon. -/
def _notify_presence (priv : PresenceWidgetPrivate) (account : TpAccount) :
    PresenceWidgetPrivate :=
  { priv with status_icon := presence_icons_at (tp_account_get_presence account) }

/-- `_notify_status_message` (lines 143-158): display the account's status
message, substituting the presence-indexed default when it is empty. -/
def _notify_status_message (priv : PresenceWidgetPrivate) (account : TpAccount) :
    PresenceWidgetPrivate :=
  let msg := tp_account_get_status_message account
  let msg1 :=
    if msg.length = 0 then
      default_messages_at (tp_account_get_presence account)
    else msg
  { priv with status_message_text := msg1 }

/-- `_get_property_statuses` (lines 160-181): completion callback of the
`Statuses` property fetch.  On error, log and leave the cache untouched.
On a value of the wrong boxed type, `g_return_if_fail` returns with the
cache untouched.  Otherwise unref the previously cached table (if any —
exactly once) and store a new reference to the delivered table. -/
def _get_property_statuses (priv : PresenceWidgetPrivate) (value : GValue)
    (error : Option GError) : PresenceWidgetPrivate × List Effect :=
  match error with
  | some err => (priv, [Effect.warning err.message])
  | none =>
    match value with
    | GValue.statusSpecMap table =>
      match priv.statuses with
      | some old =>
          ({ priv with statuses := some table }, [Effect.unrefTable old])
      | none => ({ priv with statuses := some table }, [])
    | GValue.other => (priv, [])

/-- `_connection_ready` (lines 183-207): once the connection is ready, if it
supports the simple-presence interface, issue one asynchronous
`tp_cli_dbus_properties_call_get` for its `Statuses` property; on a
readiness error, just log. -/
def _connection_ready (conn : TpConnection) (error : Option GError) :
    List Effect :=
  match error with
  | some err => [Effect.warning err.message]
  | none =>
    if tp_proxy_has_interface conn TP_IFACE_CONNECTION_INTERFACE_SIMPLE_PRESENCE then
      [Effect.getProperty TP_IFACE_CONNECTION_INTERFACE_SIMPLE_PRESENCE "Statuses"]
    else []

/-- `_status_changed` (lines 209-224): do nothing when the account has no
connection; when the new status is Connected or Disconnected, request that
the connection become ready (with `_connection_ready` as callback). -/
def _status_changed (_old_status new_status _reason : Nat) (account : TpAccount) :
    List Effect :=
  match tp_account_get_connection account with
  | none => []
  | some conn =>
    if new_status = TP_CONNECTION_STATUS_CONNECTED ∨
        new_status = TP_CONNECTION_STATUS_DISCONNECTED then
      [Effect.callWhenReady conn]
    else []

/-- `_account_removed` (lines 226-232): the account was removed; destroy the
widget. -/
def _account_removed (_priv : PresenceWidgetPrivate) (_account : TpAccount) :
    List Effect :=
  [Effect.destroyWidget]

/-- `PROP_ACCOUNT` (the property enum; `PROP_0` = 0). -/
def PROP_ACCOUNT : Nat := 1

/-- `presence_widget_set_property` (lines 85-103), specialised to the one
object-valued property the class installs. -/
def presence_widget_set_property (priv : PresenceWidgetPrivate)
    (prop_id : Nat) (value : Option TpAccount) : PresenceWidgetPrivate :=
  if prop_id = PROP_ACCOUNT then { priv with account := value } else priv

/-- `presence_widget_get_property` (lines 65-83): yields the account for
`PROP_ACCOUNT` and nothing (a warning) for any other id. -/
def presence_widget_get_property (priv : PresenceWidgetPrivate)
    (prop_id : Nat) : Option (Option TpAccount) :=
  if prop_id = PROP_ACCOUNT then some priv.account else none

/-- The six `g_signal_connect_swapped` registrations performed by
`presence_widget_constructed` (lines 239-251), in order. -/
def construct_connects : List Effect :=
  [ Effect.connectSignal "notify::enabled",
    Effect.connectSignal "notify::display-name",
    Effect.connectSignal "notify::presence",
    Effect.connectSignal "notify::status-message",
    Effect.connectSignal "status-changed",
    Effect.connectSignal "removed" ]

/-- `presence_widget_constructed` (lines 234-261): subscribe to the
account's signals, prime the four field-sync handlers once each, then
invoke `_status_changed` once with `old_status` 0, `reason` 0 and the
account's current connection status as `new_status`.  `priv->account` was
set by the construct-only property before this runs; the `none` branch is
unreachable through `presence_widget_new`. -/
def presence_widget_constructed (priv : PresenceWidgetPrivate) :
    PresenceWidgetPrivate × List Effect :=
  match priv.account with
  | none => (priv, [])
  | some account =>
    let step := _notify_enabled priv account
    let priv2 := _notify_display_name step.1 account
    let priv3 := _notify_presence priv2 account
    let priv4 := _notify_status_message priv3 account
    let probe := _status_changed 0 (tp_account_get_connection_status account) 0 account
    (priv4, construct_connects ++ step.2 ++ probe)

/-- `presence_widget_dispose` (lines 263-272): unref the account reference
and null the field; nothing else is touched. -/
def presence_widget_dispose (priv : PresenceWidgetPrivate) :
    PresenceWidgetPrivate × List Effect :=
  ({ priv with account := none }, [Effect.unrefAccount])

/-- `presence_widget_init` (lines 308-335): fresh instance state — a fresh
unchecked check button (whose `toggled` signal is wired to
`_enabled_toggled`), an empty label, an empty image, and a zeroed private
struct (GObject private data is zero-initialised, so the guard starts
at 0). -/
def presence_widget_init : PresenceWidgetPrivate :=
  { account := none,
    statuses := none,
    enabled_check_active := false,
    enabled_check_label := "",
    status_icon := "",
    status_message_text := "",
    updating_ui_lock := 0 }

/-- The result of `g_object_new`: final private state plus the effects
emitted during construction. -/
structure PresenceWidget where
  priv : PresenceWidgetPrivate
  effects : List Effect
  deriving DecidableEq, Repr

/-- `presence_widget_new` (lines 337-345): `g_return_val_if_fail
(TP_IS_ACCOUNT (account), NULL)` refuses a null account; otherwise
`g_object_new` runs instance init, sets the construct-only `account`
property, and runs `constructed`. -/
def presence_widget_new (account : Option TpAccount) : Option PresenceWidget :=
  match account with
  | none => none
  | some acct =>
    let priv0 := presence_widget_init
    let priv1 := presence_widget_set_property priv0 PROP_ACCOUNT (some acct)
    let step := presence_widget_constructed priv1
    some { priv := step.1, effects := step.2 }

/-! ## Concrete fixtures used by witnesses -/

/-- A connection declaring the simple-presence interface. -/
def sample_connection : TpConnection :=
  { interfaces := [TP_IFACE_CONNECTION_INTERFACE_SIMPLE_PRESENCE] }

/-- An enabled, available, connected account with an empty status message. -/
def sample_account : TpAccount :=
  { enabled := true,
    display_name := "Danielle",
    presence := TpConnectionPresenceType.available,
    status_message := "",
    connection_status := TP_CONNECTION_STATUS_CONNECTED,
    connection := some sample_connection }

/-- An account with no connection and a non-empty status message. -/
def sample_account_busy : TpAccount :=
  { enabled := false,
    display_name := "Danielle",
    presence := TpConnectionPresenceType.busy,
    status_message := "brb",
    connection_status := TP_CONNECTION_STATUS_DISCONNECTED,
    connection := none }

/-- A private state that already caches a status-spec table. -/
def sample_priv_cached : PresenceWidgetPrivate :=
  { presence_widget_init with statuses := some 3 }

/-! ## Helper lemmas -/

/-- Running `_notify_enabled` from any state with a non-negative guard
pushes the account's enabled flag into the toggle, restores the guard and
emits no effect: the synchronous `toggled` echo is swallowed by the guard. -/
theorem notify_enabled_run (priv : PresenceWidgetPrivate) (account : TpAccount)
    (h : 0 ≤ priv.updating_ui_lock) :
    _notify_enabled priv account =
      ({ priv with enabled_check_active := tp_account_is_enabled account }, []) := by
  cases priv with
  | mk account0 statuses0 active0 label0 icon0 text0 lock0 =>
    simp only [PresenceWidgetPrivate.updating_ui_lock] at h
    unfold _notify_enabled gtk_toggle_button_set_active _enabled_toggled
    by_cases hc : active0 = tp_account_is_enabled account
    · simp [hc]
    · have hpos : (lock0 + 1 : Int) > 0 := by omega
      simp [hc, hpos]

/-! ## Claims -/

/-- C6: for each of the nine `TpConnectionPresenceType` values used as an
index, both the static icon-name table and the static default-message table
yield a defined entry (indexing is always in bounds over the closed
enumeration, and the lookup is total). -/
theorem presence_tables_total : ∀ p : TpConnectionPresenceType,
    p.toNat < presence_icons.length ∧
    p.toNat < default_messages.length ∧
    presence_icons.get? p.toNat = some (presence_icons_at p) ∧
    default_messages.get? p.toNat = some (default_messages_at p) := by
  intro p
  cases p <;> exact ⟨by decide, by decide, rfl, rfl⟩

/-- C8: a `removed` event from the account unconditionally destroys the
widget, whatever the private state. -/
theorem account_removed_destroys :
    ∀ (priv : PresenceWidgetPrivate) (account : TpAccount),
      _account_removed priv account = [Effect.destroyWidget] := by
  intro priv account
  rfl

/-- C7: constructing a widget with a null account reference is refused:
`presence_widget_new` returns null and no widget is produced. -/
theorem new_refuses_null_account : presence_widget_new none = none := rfl

/-- C10: disposal releases exactly the account reference and nulls that
field; the cached status-spec map and every other private field are left
unchanged, and no status-spec table is unreffed. -/
theorem dispose_releases_only_account (priv : PresenceWidgetPrivate) :
    (presence_widget_dispose priv).1.account = none ∧
    (presence_widget_dispose priv).2 = [Effect.unrefAccount] ∧
    (presence_widget_dispose priv).1.statuses = priv.statuses ∧
    (presence_widget_dispose priv).1.enabled_check_active = priv.enabled_check_active ∧
    (presence_widget_dispose priv).1.enabled_check_label = priv.enabled_check_label ∧
    (presence_widget_dispose priv).1.status_icon = priv.status_icon ∧
    (presence_widget_dispose priv).1.status_message_text = priv.status_message_text ∧
    (presence_widget_dispose priv).1.updating_ui_lock = priv.updating_ui_lock ∧
    (presence_widget_dispose priv).2.countP (fun e => Effect.isUnrefTable e) = 0 :=
  ⟨rfl, rfl, rfl, rfl, rfl, rfl, rfl, rfl, rfl⟩

/-- C2: a `toggled` event received while the re-entrancy guard is zero
issues exactly one asynchronous `set_enabled` request carrying the toggle
control's current active state. -/
theorem enabled_toggled_emits_set_enabled (priv : PresenceWidgetPrivate)
    (button_active : Bool) (h : priv.updating_ui_lock = 0) :
    _enabled_toggled priv button_active = [Effect.setEnabled button_active] := by
  unfold _enabled_toggled
  rw [h]
  rfl

/-- Witness for C2 at the freshly initialised state (guard is zero). -/
theorem enabled_toggled_emits_set_enabled_witness :
    _enabled_toggled presence_widget_init true = [Effect.setEnabled true] :=
  enabled_toggled_emits_set_enabled presence_widget_init true rfl

/-- C1: a programmatic update of the enabled field (`_notify_enabled`, the
sync handler for an external change notification) holds the re-entrancy
guard strictly positive during the write into the toggle control, so the
synchronously echoed `toggled` event is suppressed: no `set_enabled`
request is emitted, and the guard is restored afterwards. -/
theorem notify_enabled_suppresses_echo (priv : PresenceWidgetPrivate)
    (account : TpAccount) (h : 0 ≤ priv.updating_ui_lock) :
    0 < ({ priv with updating_ui_lock := priv.updating_ui_lock + 1 }
          : PresenceWidgetPrivate).updating_ui_lock ∧
    (_notify_enabled priv account).2.countP (fun e => Effect.isSetEnabled e) = 0 ∧
    (_notify_enabled priv account).1.updating_ui_lock = priv.updating_ui_lock := by
  refine ⟨?_, ?_, ?_⟩
  · show 0 < priv.updating_ui_lock + 1
    omega
  · rw [notify_enabled_run priv account h]
    rfl
  · rw [notify_enabled_run priv account h]

/-- Witness for C1 at the freshly initialised state and an enabled account
(the write actually flips the toggle, so the echoed event is real). -/
theorem notify_enabled_suppresses_echo_witness :
    0 < ({ presence_widget_init with
            updating_ui_lock := presence_widget_init.updating_ui_lock + 1 }
          : PresenceWidgetPrivate).updating_ui_lock ∧
    (_notify_enabled presence_widget_init sample_account).2.countP
      (fun e => Effect.isSetEnabled e) = 0 ∧
    (_notify_enabled presence_widget_init sample_account).1.updating_ui_lock =
      presence_widget_init.updating_ui_lock :=
  notify_enabled_suppresses_echo presence_widget_init sample_account (by decide)

/-- C3: the status-message sync handler displays the presence-indexed
default message when the account's status message is empty, and the
account's status message verbatim otherwise. -/
theorem notify_status_message_display (priv : PresenceWidgetPrivate)
    (account : TpAccount) :
    ((tp_account_get_status_message account).length = 0 →
      (_notify_status_message priv account).status_message_text =
        default_messages_at (tp_account_get_presence account)) ∧
    ((tp_account_get_status_message account).length ≠ 0 →
      (_notify_status_message priv account).status_message_text =
        tp_account_get_status_message account) := by
  constructor <;> intro h <;> simp [_notify_status_message, h]

/-- Witness for C3: an empty message shows the default for Available, a
non-empty message is shown verbatim. -/
theorem notify_status_message_display_witness :
    (_notify_status_message presence_widget_init sample_account).status_message_text =
      "Available" ∧
    (_notify_status_message presence_widget_init sample_account_busy).status_message_text =
      "brb" :=
  ⟨(notify_status_message_display presence_widget_init sample_account).1 (by decide),
   (notify_status_message_display presence_widget_init sample_account_busy).2 (by decide)⟩

/-- C5: a `status_changed` event does nothing when the account has no
connection; with a connection, it requests connection readiness (the first
step of the capability probe) if and only if the new status is Connected or
Disconnected. -/
theorem status_changed_probe (old_status new_status reason : Nat)
    (account : TpAccount) :
    (tp_account_get_connection account = none →
      _status_changed old_status new_status reason account = []) ∧
    (∀ conn, tp_account_get_connection account = some conn →
      (_status_changed old_status new_status reason account =
          [Effect.callWhenReady conn] ↔
        (new_status = TP_CONNECTION_STATUS_CONNECTED ∨
         new_status = TP_CONNECTION_STATUS_DISCONNECTED))) := by
  constructor
  · intro h
    unfold _status_changed
    rw [h]
  · intro conn h
    unfold _status_changed
    rw [h]
    by_cases hs : new_status = TP_CONNECTION_STATUS_CONNECTED ∨
        new_status = TP_CONNECTION_STATUS_DISCONNECTED
    · simp [hs]
    · simp [hs]

/-- Witness for C5: no probe without a connection; a probe on a connected
transition with a connection present. -/
theorem status_changed_probe_witness :
    _status_changed 0 TP_CONNECTION_STATUS_CONNECTED 0 sample_account_busy = [] ∧
    _status_changed 0 TP_CONNECTION_STATUS_CONNECTED 0 sample_account =
      [Effect.callWhenReady sample_connection] :=
  ⟨(status_changed_probe 0 TP_CONNECTION_STATUS_CONNECTED 0 sample_account_busy).1 rfl,
   ((status_changed_probe 0 TP_CONNECTION_STATUS_CONNECTED 0 sample_account).2
      sample_connection rfl).mpr (Or.inl rfl)⟩

/-- C4: with a connection present and the new status Connected, the handler
requests readiness; once ready with simple-presence support it issues
exactly one `get_property` request for `Statuses`; on success the cached
status-spec map is replaced, the old reference (if any) unreffed exactly
once; on failure the cache is left exactly as before and the error is
logged. -/
theorem connected_statuses_fetch (conn : TpConnection) (account : TpAccount)
    (old_status reason : Nat)
    (hconn : tp_account_get_connection account = some conn)
    (hiface : tp_proxy_has_interface conn
      TP_IFACE_CONNECTION_INTERFACE_SIMPLE_PRESENCE = true) :
    _status_changed old_status TP_CONNECTION_STATUS_CONNECTED reason account =
      [Effect.callWhenReady conn] ∧
    _connection_ready conn none =
      [Effect.getProperty TP_IFACE_CONNECTION_INTERFACE_SIMPLE_PRESENCE "Statuses"] ∧
    (∀ (priv : PresenceWidgetPrivate) (table : GHashTable),
      (_get_property_statuses priv (GValue.statusSpecMap table) none).1.statuses =
        some table ∧
      (_get_property_statuses priv (GValue.statusSpecMap table) none).2 =
        (match priv.statuses with
          | some old => [Effect.unrefTable old]
          | none => [])) ∧
    (∀ (priv : PresenceWidgetPrivate) (value : GValue) (err : GError),
      (_get_property_statuses priv value (some err)).1 = priv ∧
      (_get_property_statuses priv value (some err)).2 =
        [Effect.warning err.message]) := by
  refine ⟨?_, ?_, ?_, ?_⟩
  · unfold _status_changed
    rw [hconn]
    simp
  · unfold _connection_ready
    simp [hiface]
  · intro priv table
    cases hst : priv.statuses <;> simp [_get_property_statuses, hst]
  · intro priv value err
    exact ⟨rfl, rfl⟩

/-- Witness for C4: the sample connected account; a cache already holding
table 3 replaced by table 7 with one unref of 3; an error reply that leaves
the cache untouched and logs. -/
theorem connected_statuses_fetch_witness :
    _status_changed 1 TP_CONNECTION_STATUS_CONNECTED 0 sample_account =
      [Effect.callWhenReady sample_connection] ∧
    _connection_ready sample_connection none =
      [Effect.getProperty TP_IFACE_CONNECTION_INTERFACE_SIMPLE_PRESENCE "Statuses"] ∧
    (_get_property_statuses sample_priv_cached (GValue.statusSpecMap 7) none).1.statuses =
      some 7 ∧
    (_get_property_statuses sample_priv_cached (GValue.statusSpecMap 7) none).2 =
      [Effect.unrefTable 3] ∧
    (_get_property_statuses sample_priv_cached GValue.other (some ⟨"oops"⟩)).1 =
      sample_priv_cached ∧
    (_get_property_statuses sample_priv_cached GValue.other (some ⟨"oops"⟩)).2 =
      [Effect.warning "oops"] := by
  have hmain := connected_statuses_fetch sample_connection sample_account 1 0 rfl rfl
  exact ⟨hmain.1, hmain.2.1,
    (hmain.2.2.1 sample_priv_cached 7).1,
    (hmain.2.2.1 sample_priv_cached 7).2,
    (hmain.2.2.2 sample_priv_cached GValue.other ⟨"oops"⟩).1,
    (hmain.2.2.2 sample_priv_cached GValue.other ⟨"oops"⟩).2⟩

/-- C9: construction through `presence_widget_new` primes the four
field-sync handlers once each (toggle state, label, icon, message all
reflect the account) and then additionally invokes `_status_changed` once
with `old_status` 0, `reason` 0 and the account's current connection status
as `new_status`, so its effects are exactly the six signal connections
followed by that status-changed invocation's capability probe. -/
theorem constructed_primes_and_probes (account : TpAccount) :
    ∃ w : PresenceWidget, presence_widget_new (some account) = some w ∧
      w.effects = construct_connects ++
        _status_changed 0 (tp_account_get_connection_status account) 0 account ∧
      w.priv.account = some account ∧
      w.priv.enabled_check_active = tp_account_is_enabled account ∧
      w.priv.enabled_check_label = tp_account_get_display_name account ∧
      w.priv.status_icon = presence_icons_at (tp_account_get_presence account) ∧
      w.priv.status_message_text =
        (if (tp_account_get_status_message account).length = 0 then
          default_messages_at (tp_account_get_presence account)
        else tp_account_get_status_message account) ∧
      w.priv.updating_ui_lock = 0 := by
  have hrun := notify_enabled_run
    { account := some account, statuses := none, enabled_check_active := false,
      enabled_check_label := "", status_icon := "", status_message_text := "",
      updating_ui_lock := 0 } account (le_refl 0)
  refine ⟨_, rfl, ?_, ?_, ?_, ?_, ?_, ?_⟩ <;>
    simp [presence_widget_new, presence_widget_constructed,
      presence_widget_set_property, PROP_ACCOUNT, presence_widget_init,
      _notify_display_name, _notify_presence, _notify_status_message,
      tp_account_get_status_message, hrun]
